import Mathlib

/-!
Verification development for the OEM7 Heading library
(NovAtel OEM7 dual-antenna GNSS receiver driver).

The embedding models the byte-level frame decoder `oem7::Receiver::getData`,
the CRC-32 routine `oem7::Receiver::crc32`, the polling-cycle health
evaluation `oem7::Receiver::update`, and the inline getters of `Receiver.h`
(`isValid`, `isJamming`, `isSpoofing`, `version`, `versionComponent`,
`utcTime`).  Machine integers are `Nat`; fields that the C++ code stores as
IEEE floats or character arrays are kept as their raw little-endian byte
values, matching the `memcpy`-onto-packed-struct decoding of the source.
The serial input is a list of byte values; `readBytes(n)` succeeding means
at least `n` bytes remain.
-/

namespace OEM7

/-! ## Protocol constants (oem7.h) -/

def HEAD_SYNC_1 : Nat := 0xAA
def HEAD_SYNC_2 : Nat := 0x44
def HEAD_SYNC_3 : Nat := 0x12
def HEAD_LENGHT : Nat := 0x1C

def MSG_VERSION : Nat := 37
def MSG_BESTPOS : Nat := 42
def MSG_RXSTATUS : Nat := 93
def MSG_RXSTATUSEVENT : Nat := 94
def MSG_TIME : Nat := 101
def MSG_HWMONITOR : Nat := 963
def MSG_DUALANTHEADING : Nat := 2042

def CLOCK_VALID : Nat := 0
def UTC_VALID : Nat := 1
def SOL_COMPUTED : Nat := 0
def POS_NARROW_FLOAT : Nat := 34
def POS_WIDE_INT : Nat := 49
def POS_NARROW_INT : Nat := 50

/-- Size in bytes of the packed `oem7::Head` struct (the 28-byte wire header
minus the 4 preamble bytes). -/
def headSize : Nat := 24

/-- Size in bytes of the packed `oem7::Version` struct. -/
def versionSize : Nat := 108

/-- Size in bytes of the packed `oem7::HWMonitor` struct. -/
def hwMonitorSize : Nat := 8

/-- Size in bytes of the packed `oem7::RxStatus` struct (22 32-bit words). -/
def rxStatusSize : Nat := 88

/-- Size in bytes of the packed `oem7::RxStatusEvent` struct. -/
def rxStatusEventSize : Nat := 44

/-- Size in bytes of the packed `oem7::Time` struct. -/
def timeSize : Nat := 44

/-- Size in bytes of the packed `oem7::BestPos` struct. -/
def bestPosSize : Nat := 72

/-- Size in bytes of the packed `oem7::DualAntHeading` struct. -/
def dualAntHeadingSize : Nat := 44

/-! ## Little-endian byte access -/

/-- Byte `i` of a byte list (0 when out of range, matching zeroed scratch). -/
def byteAt (l : List Nat) (i : Nat) : Nat := l.getD i 0

/-- Little-endian 16-bit read at offset `i`. -/
def leU16 (l : List Nat) (i : Nat) : Nat :=
  byteAt l i + 256 * byteAt l (i + 1)

/-- Little-endian 32-bit read at offset `i`. -/
def leU32 (l : List Nat) (i : Nat) : Nat :=
  byteAt l i + 256 * byteAt l (i + 1) + 65536 * byteAt l (i + 2) +
    16777216 * byteAt l (i + 3)

/-- Little-endian 64-bit read at offset `i` (raw bit pattern of doubles). -/
def leU64 (l : List Nat) (i : Nat) : Nat :=
  leU32 l i + 4294967296 * leU32 l (i + 4)

/-- Little-endian 16-bit encoding. -/
def le16bytes (n : Nat) : List Nat := [n % 256, n / 256 % 256]

/-- Little-endian 32-bit encoding. -/
def le32bytes (n : Nat) : List Nat :=
  [n % 256, n / 256 % 256, n / 65536 % 256, n / 16777216 % 256]

/-! ## Record structures (oem7.h), decoded from packed little-endian bytes -/

/-- Binary message header `oem7::Head`. -/
structure Head where
  msgId : Nat
  msgType : Nat
  portAddress : Nat
  msgLenght : Nat
  sequence : Nat
  idleTime : Nat
  timeStatus : Nat
  week : Nat
  ms : Nat
  receiverStatus : Nat
  reserved : Nat
  receiverVersion : Nat
deriving DecidableEq

/-- Decode `oem7::Head` from its 24 packed bytes. -/
def decodeHead (b : List Nat) : Head :=
  { msgId := leU16 b 0
    msgType := byteAt b 2
    portAddress := byteAt b 3
    msgLenght := leU16 b 4
    sequence := leU16 b 6
    idleTime := byteAt b 8
    timeStatus := byteAt b 9
    week := leU16 b 10
    ms := leU32 b 12
    receiverStatus := leU32 b 16
    reserved := leU16 b 20
    receiverVersion := leU16 b 22 }

/-- Receiver status record `oem7::RxStatus` (22 consecutive 32-bit words). -/
structure RxStatus where
  error : Nat
  numStats : Nat
  rxstat : Nat
  rxstatPri : Nat
  rxstatSet : Nat
  rxstatClear : Nat
  aux1stat : Nat
  aux1statPri : Nat
  aux1statSet : Nat
  aux1statClear : Nat
  aux2stat : Nat
  aux2statPri : Nat
  aux2statSet : Nat
  aux2statClear : Nat
  aux3stat : Nat
  aux3statPri : Nat
  aux3statSet : Nat
  aux3statClear : Nat
  aux4stat : Nat
  aux4statPri : Nat
  aux4statSet : Nat
  aux4statClear : Nat
deriving DecidableEq

/-- Decode `oem7::RxStatus` from its 88 packed bytes. -/
def decodeRxStatus (b : List Nat) : RxStatus :=
  { error := leU32 b 0
    numStats := leU32 b 4
    rxstat := leU32 b 8
    rxstatPri := leU32 b 12
    rxstatSet := leU32 b 16
    rxstatClear := leU32 b 20
    aux1stat := leU32 b 24
    aux1statPri := leU32 b 28
    aux1statSet := leU32 b 32
    aux1statClear := leU32 b 36
    aux2stat := leU32 b 40
    aux2statPri := leU32 b 44
    aux2statSet := leU32 b 48
    aux2statClear := leU32 b 52
    aux3stat := leU32 b 56
    aux3statPri := leU32 b 60
    aux3statSet := leU32 b 64
    aux3statClear := leU32 b 68
    aux4stat := leU32 b 72
    aux4statPri := leU32 b 76
    aux4statSet := leU32 b 80
    aux4statClear := leU32 b 84 }

/-- Time record `oem7::Time`; the three double fields are kept as raw
64-bit little-endian values. -/
structure Time where
  clock_status : Nat
  offset : Nat
  offset_std : Nat
  utc_offset : Nat
  utc_year : Nat
  utc_month : Nat
  utc_day : Nat
  utc_hour : Nat
  utc_min : Nat
  utc_ms : Nat
  utc_status : Nat
deriving DecidableEq

/-- Decode `oem7::Time` from its 44 packed bytes. -/
def decodeTime (b : List Nat) : Time :=
  { clock_status := leU32 b 0
    offset := leU64 b 4
    offset_std := leU64 b 12
    utc_offset := leU64 b 20
    utc_year := leU32 b 28
    utc_month := byteAt b 32
    utc_day := byteAt b 33
    utc_hour := byteAt b 34
    utc_min := byteAt b 35
    utc_ms := leU32 b 36
    utc_status := leU32 b 40 }

/-- Best-position record `oem7::BestPos`; float and double fields are kept
as raw little-endian bit patterns, `baseID` as raw bytes. -/
structure BestPos where
  solutionStatus : Nat
  positionType : Nat
  lat : Nat
  lon : Nat
  alt : Nat
  undulation : Nat
  datum_id : Nat
  latStdDev : Nat
  lonStdDev : Nat
  altStdDev : Nat
  baseID : List Nat
  diff_age : Nat
  sol_age : Nat
  satellitesTracked : Nat
  satellitesUsed : Nat
  satellitesL1 : Nat
  satellitesMulti : Nat
  reserved : Nat
  solutionStatusEx : Nat
  gbdMask : Nat
  gpsMask : Nat
deriving DecidableEq

/-- Decode `oem7::BestPos` from its 72 packed bytes. -/
def decodeBestPos (b : List Nat) : BestPos :=
  { solutionStatus := leU32 b 0
    positionType := leU32 b 4
    lat := leU64 b 8
    lon := leU64 b 16
    alt := leU64 b 24
    undulation := leU32 b 32
    datum_id := leU32 b 36
    latStdDev := leU32 b 40
    lonStdDev := leU32 b 44
    altStdDev := leU32 b 48
    baseID := (b.drop 52).take 4
    diff_age := leU32 b 56
    sol_age := leU32 b 60
    satellitesTracked := byteAt b 64
    satellitesUsed := byteAt b 65
    satellitesL1 := byteAt b 66
    satellitesMulti := byteAt b 67
    reserved := byteAt b 68
    solutionStatusEx := byteAt b 69
    gbdMask := byteAt b 70
    gpsMask := byteAt b 71 }

/-- Dual-antenna heading record `oem7::DualAntHeading`; float fields are
kept as raw little-endian bit patterns. -/
structure DualAntHeading where
  solutionStatus : Nat
  positionType : Nat
  length : Nat
  heading : Nat
  pitch : Nat
  reserved : Nat
  hdgStdDev : Nat
  ptchStdDev : Nat
  stationID : List Nat
  satellitesTracked : Nat
  satellitesUsed : Nat
  satellitesObs : Nat
  satellitesMulti : Nat
  solutionSource : Nat
  solutionStatusEx : Nat
  gbdMask : Nat
  gpsMask : Nat
deriving DecidableEq

/-- Decode `oem7::DualAntHeading` from its 44 packed bytes. -/
def decodeHeading (b : List Nat) : DualAntHeading :=
  { solutionStatus := leU32 b 0
    positionType := leU32 b 4
    length := leU32 b 8
    heading := leU32 b 12
    pitch := leU32 b 16
    reserved := leU32 b 20
    hdgStdDev := leU32 b 24
    ptchStdDev := leU32 b 28
    stationID := (b.drop 32).take 4
    satellitesTracked := byteAt b 36
    satellitesUsed := byteAt b 37
    satellitesObs := byteAt b 38
    satellitesMulti := byteAt b 39
    solutionSource := byteAt b 40
    solutionStatusEx := byteAt b 41
    gbdMask := byteAt b 42
    gpsMask := byteAt b 43 }

/-! ## CRC-32 (Receiver.cpp `crc32`) -/

/-- One shift-xor step of the CRC-32 bit loop (polynomial 0xEDB88320). -/
def crcStep (val : Nat) : Nat :=
  if val &&& 1 = 1 then (val >>> 1) ^^^ 0xEDB88320 else val >>> 1

/-- Iterate `crcStep` a given number of times. -/
def crcStepN : Nat → Nat → Nat
  | 0, val => val
  | i + 1, val => crcStepN i (crcStep val)

/-- The `crc32value` lambda of `oem7::Receiver::crc32`: eight bit steps. -/
def crc32value (val : Nat) : Nat := crcStepN 8 val

/-- One byte of the CRC-32 accumulation loop of `oem7::Receiver::crc32`. -/
def crc32update (crc b : Nat) : Nat :=
  ((crc >>> 8) &&& 0x00FFFFFF) ^^^ crc32value ((crc ^^^ b) &&& 0xFF)

/-- `oem7::Receiver::crc32` over a block of bytes, initial value 0. -/
def crc32 (l : List Nat) : Nat := l.foldl crc32update 0

/-! ## Receiver state -/

/-- Default (zero-initialized) content of one `oem7::Version` slot,
kept as its 108 raw bytes. -/
def versionDefault : List Nat := List.replicate versionSize 0

/-- Default (zero-initialized) content of one `oem7::HWMonitor` slot,
kept as its 8 raw bytes. -/
def monitorDefault : List Nat := List.replicate hwMonitorSize 0

/-- The mutable state of `oem7::Receiver` (Receiver.h private fields).
`version` and `monitor` keep each array slot as the raw bytes that
`memcpy` wrote there; `event` keeps the raw `RxStatusEvent` payload. -/
structure Receiver where
  valid : Bool
  versionIdx : Nat
  measurement : Nat
  version : List (List Nat)
  monitor : List (List Nat)
  rxstatus : RxStatus
  event : List Nat
  time : Time
  bestpos : BestPos
  heading : DualAntHeading
deriving DecidableEq

/-- The zero `oem7::RxStatus` (member initializer `{ 0 }`). -/
def rxStatusZero : RxStatus :=
  { error := 0, numStats := 0, rxstat := 0, rxstatPri := 0, rxstatSet := 0
    rxstatClear := 0, aux1stat := 0, aux1statPri := 0, aux1statSet := 0
    aux1statClear := 0, aux2stat := 0, aux2statPri := 0, aux2statSet := 0
    aux2statClear := 0, aux3stat := 0, aux3statPri := 0, aux3statSet := 0
    aux3statClear := 0, aux4stat := 0, aux4statPri := 0, aux4statSet := 0
    aux4statClear := 0 }

/-- The zero `oem7::Time` (member initializer `{ 0 }`). -/
def timeZero : Time :=
  { clock_status := 0, offset := 0, offset_std := 0, utc_offset := 0
    utc_year := 0, utc_month := 0, utc_day := 0, utc_hour := 0, utc_min := 0
    utc_ms := 0, utc_status := 0 }

/-- The zero `oem7::BestPos` (member initializer `{ 0 }`). -/
def bestPosZero : BestPos :=
  { solutionStatus := 0, positionType := 0, lat := 0, lon := 0, alt := 0
    undulation := 0, datum_id := 0, latStdDev := 0, lonStdDev := 0
    altStdDev := 0, baseID := [0, 0, 0, 0], diff_age := 0, sol_age := 0
    satellitesTracked := 0, satellitesUsed := 0, satellitesL1 := 0
    satellitesMulti := 0, reserved := 0, solutionStatusEx := 0, gbdMask := 0
    gpsMask := 0 }

/-- The zero `oem7::DualAntHeading` (member initializer `{ 0 }`). -/
def headingZero : DualAntHeading :=
  { solutionStatus := 0, positionType := 0, length := 0, heading := 0
    pitch := 0, reserved := 0, hdgStdDev := 0, ptchStdDev := 0
    stationID := [0, 0, 0, 0], satellitesTracked := 0, satellitesUsed := 0
    satellitesObs := 0, satellitesMulti := 0, solutionSource := 0
    solutionStatusEx := 0, gbdMask := 0, gpsMask := 0 }

/-- The freshly constructed `oem7::Receiver` (all members zero). -/
def initialReceiver : Receiver :=
  { valid := false
    versionIdx := 0
    measurement := 0
    version := List.replicate 8 versionDefault
    monitor := List.replicate 10 monitorDefault
    rxstatus := rxStatusZero
    event := List.replicate rxStatusEventSize 0
    time := timeZero
    bestpos := bestPosZero
    heading := headingZero }

/-! ## Getters (Receiver.h) -/

/-- Getter `oem7::Receiver::isValid`. -/
def isValid (s : Receiver) : Bool := s.valid

/-- Getter `oem7::Receiver::isJamming`:
`return (_rxstatus.rxstat & 0x00008000);` (nonzero means true). -/
def isJamming (s : Receiver) : Bool := s.rxstatus.rxstat &&& 0x00008000 != 0

/-- Getter `oem7::Receiver::isSpoofing`:
`return _rxstatus.rxstat & 0x00000200;` (nonzero means true). -/
def isSpoofing (s : Receiver) : Bool := s.rxstatus.rxstat &&& 0x00000200 != 0

/-- Getter `oem7::Receiver::versionComponent`. -/
def versionComponent (s : Receiver) : Nat := s.versionIdx

/-- Getter `oem7::Receiver::version`:
`return _version[idx > _versionIdx ? 0 : idx];`. -/
def versionGet (s : Receiver) (idx : Nat) : List Nat :=
  s.version.getD (if idx > s.versionIdx then 0 else idx) versionDefault

/-- The six out-parameters written by `oem7::Receiver::utcTime`. -/
structure UtcOut where
  year : Nat
  month : Nat
  day : Nat
  hour : Nat
  minute : Nat
  second : Nat
deriving DecidableEq

/-- Getter `oem7::Receiver::utcTime`: writes all six out-parameters from
`_time` unconditionally (the cast of `utc_ms / 1000` to `uint8_t` is the
`% 256`) and returns whether clock and UTC statuses are both valid. -/
def utcTime (s : Receiver) : UtcOut × Bool :=
  ({ year := s.time.utc_year
     month := s.time.utc_month
     day := s.time.utc_day
     hour := s.time.utc_hour
     minute := s.time.utc_min
     second := s.time.utc_ms / 1000 % 256 },
   s.time.clock_status == CLOCK_VALID && s.time.utc_status == UTC_VALID)

/-! ## Frame decoding (Receiver.cpp `getData`) -/

/-- Split a byte list into `n` consecutive chunks of `w` bytes each
(the shape of a `memcpy` of `n * w` bytes into an array of packed
`w`-byte structs). -/
def chunksOf (w : Nat) : Nat → List Nat → List (List Nat)
  | 0, _ => []
  | n + 1, l => l.take w :: chunksOf w n (l.drop w)

/-- The `MSG_VERSION` success store: `memcpy` of the count then of
`cnt` packed `Version` entries into `_version[0..]`. -/
def storeVersion (s : Receiver) (cnt : Nat) (es : List (List Nat)) : Receiver :=
  { s with versionIdx := cnt, version := es ++ s.version.drop cnt }

/-- The `MSG_HWMONITOR` success store: `memcpy` of the count then of
`cnt` packed `HWMonitor` entries into `_monitor[0..]`. -/
def storeMonitor (s : Receiver) (cnt : Nat) (es : List (List Nat)) : Receiver :=
  { s with measurement := cnt, monitor := es ++ s.monitor.drop cnt }

/-- The message-dispatch switch at the end of `oem7::Receiver::getData`
(Receiver.cpp:325-387).  Returns the value `getData` returns (`head.msgId`
on success, 0 on a size mismatch) and the updated receiver state.  Note
that for `MSG_VERSION` / `MSG_HWMONITOR` the count field is copied into
`_versionIdx` / `_measurement` before the size validation, exactly as in
the source. -/
def dispatch (s : Receiver) (head : Head) (pl : List Nat) : Nat × Receiver :=
  let size := head.msgLenght
  if head.msgId = MSG_VERSION then
    if size < 4 then (0, s)
    else
      let cnt := leU32 pl 0
      let s1 := { s with versionIdx := cnt }
      if size - 4 ≠ cnt * versionSize then (0, s1)
      else (head.msgId, storeVersion s cnt (chunksOf versionSize cnt (pl.drop 4)))
  else if head.msgId = MSG_HWMONITOR then
    if size < 4 then (0, s)
    else
      let cnt := leU32 pl 0
      let s1 := { s with measurement := cnt }
      if size - 4 ≠ cnt * hwMonitorSize then (0, s1)
      else (head.msgId, storeMonitor s cnt (chunksOf hwMonitorSize cnt (pl.drop 4)))
  else if head.msgId = MSG_RXSTATUS then
    if size ≠ rxStatusSize then (0, s)
    else (head.msgId, { s with rxstatus := decodeRxStatus pl })
  else if head.msgId = MSG_RXSTATUSEVENT then
    if size ≠ rxStatusEventSize then (0, s)
    else (head.msgId, { s with event := pl })
  else if head.msgId = MSG_TIME then
    if size ≠ timeSize then (0, s)
    else (head.msgId, { s with time := decodeTime pl })
  else if head.msgId = MSG_BESTPOS then
    if size ≠ bestPosSize then (0, s)
    else (head.msgId, { s with bestpos := decodeBestPos pl })
  else if head.msgId = MSG_DUALANTHEADING then
    if size ≠ dualAntHeadingSize then (0, s)
    else (head.msgId, { s with heading := decodeHeading pl })
  else (head.msgId, s)

/-- `oem7::Receiver::getData` (Receiver.cpp:262-388) over an input byte
list.  Returns the message id (0 for "no frame"), the updated state and
the unconsumed input.  A short read consumes all remaining input (the
serial buffer is drained up to the timeout), any other abort leaves the
tail unread. -/
def getData (s : Receiver) (input : List Nat) : Nat × Receiver × List Nat :=
  match input with
  | [] => (0, s, [])
  | b0 :: r0 =>
    if b0 ≠ HEAD_SYNC_1 then (0, s, r0)
    else match r0 with
    | [] => (0, s, [])
    | b1 :: r1 =>
      if b1 ≠ HEAD_SYNC_2 then (0, s, r1)
      else match r1 with
      | [] => (0, s, [])
      | b2 :: r2 =>
        if b2 ≠ HEAD_SYNC_3 then (0, s, r2)
        else match r2 with
        | [] => (0, s, [])
        | b3 :: r3 =>
          if b3 ≠ HEAD_LENGHT then (0, s, r3)
          else if r3.length < headSize then (0, s, [])
          else
            let hb := r3.take headSize
            let r4 := r3.drop headSize
            let head := decodeHead hb
            let size := head.msgLenght
            if r4.length < size then (0, s, [])
            else
              let pl := r4.take size
              let r5 := r4.drop size
              if r5.length < 4 then (0, s, [])
              else
                let tr := r5.take 4
                let rest := r5.drop 4
                let crc := leU32 tr 0
                let chk := crc32 (b0 :: b1 :: b2 :: b3 :: (hb ++ pl))
                if crc ≠ chk then (0, s, rest)
                else
                  let d := dispatch s head pl
                  (d.1, d.2, rest)

/-! ## Polling cycle (Receiver.cpp `update`) -/

/-- The `GET_*` flag value recorded for a `getData` return value
(the switch in `oem7::Receiver::update`). -/
def flagOf (msg : Nat) : Nat :=
  if msg = MSG_HWMONITOR then 0x01
  else if msg = MSG_RXSTATUS then 0x02
  else if msg = MSG_TIME then 0x04
  else if msg = MSG_BESTPOS then 0x08
  else if msg = MSG_DUALANTHEADING then 0x10
  else 0

/-- The drain loop `while (_serial.available() > 0) { switch (getData()) ... }`
of `oem7::Receiver::update`, with fuel.  Each iteration on a nonempty
input consumes at least one byte, so fuel equal to the input length makes
this exactly the source loop. -/
def drainLoop : Nat → Receiver → List Nat → Nat → Receiver × Nat
  | 0, s, _, flags => (s, flags)
  | fuel + 1, s, input, flags =>
    if input.isEmpty then (s, flags)
    else
      let r := getData s input
      drainLoop fuel r.2.1 r.2.2 (flags ||| flagOf r.1)

/-- The frame-draining phase of `oem7::Receiver::update`: clear `_valid`,
then drain every buffered frame, accumulating the `data` flags. -/
def drainPhase (s : Receiver) (input : List Nat) : Receiver × Nat :=
  drainLoop input.length { s with valid := false } input 0

/-- The health-evaluation tail of `oem7::Receiver::update`
(Receiver.cpp:95-158): device-error early return, antenna checks, RTK
checks, solution-status flag clearing and the final validity assignment. -/
def healthEval (p : Receiver × Nat) : Receiver :=
  let s := p.1
  let data := p.2
  if data = 0 then s
  else if data &&& 0x02 ≠ 0 ∧ s.rxstatus.error ≠ 0 then s
  else if s.rxstatus.rxstat &&& 0x00000008 ≠ 0 then s
  else if s.rxstatus.rxstat &&& 0x00000010 ≠ 0 then s
  else if s.rxstatus.rxstat &&& 0x00000020 ≠ 0 then s
  else if s.rxstatus.rxstat &&& 0x00000040 ≠ 0 then s
  else if s.rxstatus.rxstat &&& 0x00004000 ≠ 0 then s
  else if s.rxstatus.aux3stat &&& 0x30 ≠ 0 then s
  else if s.rxstatus.aux2stat &&& 0x10000000 ≠ 0 then s
  else if s.rxstatus.aux2stat &&& 0x20000000 ≠ 0 then s
  else if s.rxstatus.aux2stat &&& 0x40000000 ≠ 0 then s
  else if s.rxstatus.aux3stat &&& 0xC0 ≠ 0 then s
  else if s.rxstatus.rxstat &&& 0x00040000 ≠ 0 then s
  else if s.rxstatus.rxstat &&& 0x00080000 ≠ 0 then s
  else if s.rxstatus.rxstat &&& 0x00400000 ≠ 0 then s
  else
    let data2 :=
      if data &&& 0x08 ≠ 0 ∧ s.bestpos.solutionStatus ≠ SOL_COMPUTED
      then data &&& 0xF7 else data
    let data3 :=
      if data2 &&& 0x10 ≠ 0 ∧ s.heading.solutionStatus ≠ SOL_COMPUTED
      then data2 &&& 0xEF else data2
    if data3 &&& 0x08 ≠ 0 ∧ data3 &&& 0x10 ≠ 0 then
      { s with valid :=
          s.heading.positionType == POS_NARROW_INT ||
          s.heading.positionType == POS_WIDE_INT ||
          s.heading.positionType == POS_NARROW_FLOAT }
    else s

/-- `oem7::Receiver::update` (Receiver.cpp:63-159) over the bytes
currently buffered on the serial line. -/
def update (s : Receiver) (input : List Nat) : Receiver :=
  healthEval (drainPhase s input)

/-! ## Wire-format test-vector builders -/

/-- The four preamble bytes `0xAA 0x44 0x12 0x1C`. -/
def preamble : List Nat := [HEAD_SYNC_1, HEAD_SYNC_2, HEAD_SYNC_3, HEAD_LENGHT]

/-- A 24-byte header with the given message id and payload length, all
other header fields zero. -/
def mkHead (msgId len : Nat) : List Nat :=
  le16bytes msgId ++ [0, 0] ++ le16bytes len ++ List.replicate 18 0

/-- A complete well-formed frame: preamble, header, payload and the CRC-32
trailer the receiver computes (over all bytes from the first sync byte). -/
def mkFrame (msgId : Nat) (pl : List Nat) : List Nat :=
  let body := preamble ++ mkHead msgId pl.length ++ pl
  body ++ le32bytes (crc32 body)

/-- A 72-byte `BESTPOS` payload with the given solution status and
position type, all other fields zero. -/
def mkBestPosPl (sol pt : Nat) : List Nat :=
  le32bytes sol ++ le32bytes pt ++ List.replicate 64 0

/-- A 44-byte `DUALANTENNAHEADING` payload with the given solution status
and position type, all other fields zero. -/
def mkHeadingPl (sol pt : Nat) : List Nat :=
  le32bytes sol ++ le32bytes pt ++ List.replicate 36 0

/-- An 88-byte `RXSTATUS` payload with the given error word and the five
status words, all priority/set/clear masks zero. -/
def mkRxStatusPl (err rxstat a1 a2 a3 a4 : Nat) : List Nat :=
  le32bytes err ++ le32bytes 0 ++ le32bytes rxstat ++ List.replicate 12 0 ++
  le32bytes a1 ++ List.replicate 12 0 ++ le32bytes a2 ++ List.replicate 12 0 ++
  le32bytes a3 ++ List.replicate 12 0 ++ le32bytes a4 ++ List.replicate 12 0

/-! ## Derived characterizations and concrete test inputs -/

/-- The disjunction of the early-return conditions of
`oem7::Receiver::update` (Receiver.cpp:102-128): device error on a cycle
with a fresh RxStatus, the antenna-1/antenna-2 failure bits, and the
almanac/position/clock RTK bits of the primary status word. -/
def cycleBlocked (s : Receiver) (data : Nat) : Prop :=
  (data &&& 0x02 ≠ 0 ∧ s.rxstatus.error ≠ 0) ∨
  s.rxstatus.rxstat &&& 0x00000008 ≠ 0 ∨
  s.rxstatus.rxstat &&& 0x00000010 ≠ 0 ∨
  s.rxstatus.rxstat &&& 0x00000020 ≠ 0 ∨
  s.rxstatus.rxstat &&& 0x00000040 ≠ 0 ∨
  s.rxstatus.rxstat &&& 0x00004000 ≠ 0 ∨
  s.rxstatus.aux3stat &&& 0x30 ≠ 0 ∨
  s.rxstatus.aux2stat &&& 0x10000000 ≠ 0 ∨
  s.rxstatus.aux2stat &&& 0x20000000 ≠ 0 ∨
  s.rxstatus.aux2stat &&& 0x40000000 ≠ 0 ∨
  s.rxstatus.aux3stat &&& 0xC0 ≠ 0 ∨
  s.rxstatus.rxstat &&& 0x00040000 ≠ 0 ∨
  s.rxstatus.rxstat &&& 0x00080000 ≠ 0 ∨
  s.rxstatus.rxstat &&& 0x00400000 ≠ 0

/-- One poll cycle carrying BestPos COMPUTED and Heading COMPUTED with
position type NONE. -/
def exInC1 : List Nat :=
  mkFrame MSG_BESTPOS (mkBestPosPl 0 0) ++
  mkFrame MSG_DUALANTHEADING (mkHeadingPl 0 0)

/-- One poll cycle carrying BestPos COMPUTED and Heading COMPUTED with
position type NARROW_INT. -/
def exInC1w : List Nat :=
  mkFrame MSG_BESTPOS (mkBestPosPl 0 50) ++
  mkFrame MSG_DUALANTHEADING (mkHeadingPl 0 50)

/-- A cycle whose RxStatus has only the GPS-almanac/UTC-invalid bit set,
followed by good BestPos and Heading frames. -/
def exInC2a : List Nat :=
  mkFrame MSG_RXSTATUS (mkRxStatusPl 0 0x00040000 0 0 0 0) ++
  mkFrame MSG_BESTPOS (mkBestPosPl 0 50) ++
  mkFrame MSG_DUALANTHEADING (mkHeadingPl 0 50)

/-- The same cycle as `exInC2a` with a zero primary status word. -/
def exInC2b : List Nat :=
  mkFrame MSG_RXSTATUS (mkRxStatusPl 0 0 0 0 0 0) ++
  mkFrame MSG_BESTPOS (mkBestPosPl 0 50) ++
  mkFrame MSG_DUALANTHEADING (mkHeadingPl 0 50)

/-- A cycle whose RxStatus has all six per-RF-path jammer bits of the
auxiliary 1 word set (mask 0x77) and a zero primary status word. -/
def exInC3 : List Nat :=
  mkFrame MSG_RXSTATUS (mkRxStatusPl 0 0 0x77 0 0 0)

/-- A cycle whose RxStatus has only the whole-receiver jammer bit
(0x8000) set in the primary status word. -/
def exInC3w : List Nat :=
  mkFrame MSG_RXSTATUS (mkRxStatusPl 0 0x8000 0 0 0 0)

/-- A cycle whose RxStatus has only the CPU-overload warning bit (0x80)
set, followed by good BestPos and Heading frames. -/
def exInC4 : List Nat :=
  mkFrame MSG_RXSTATUS (mkRxStatusPl 0 0x80 0 0 0 0) ++
  mkFrame MSG_BESTPOS (mkBestPosPl 0 50) ++
  mkFrame MSG_DUALANTHEADING (mkHeadingPl 0 50)

/-- A cycle carrying an RxStatus frame with error word 0x80000000
(component hardware failure). -/
def exInC4err : List Nat :=
  mkFrame MSG_RXSTATUS (mkRxStatusPl 0x80000000 0 0 0 0 0)

/-- A 44-byte TIME payload used by the CRC test vectors. -/
def exC5timePl : List Nat := List.replicate timeSize 9

/-- Preamble, header and payload of the C5 test frame. -/
def exC5body : List Nat := preamble ++ mkHead MSG_TIME timeSize ++ exC5timePl

/-- The C5 test frame with its trailer set to the CRC over header+payload
only (the checksum the spec describes, excluding the preamble). -/
def exC5specFrame : List Nat :=
  exC5body ++ le32bytes (crc32 (mkHead MSG_TIME timeSize ++ exC5timePl))

/-- The C5 test frame with its trailer set to the CRC the code computes
(over the preamble, header and payload). -/
def exC5codeFrame : List Nat := exC5body ++ le32bytes (crc32 exC5body)

/-- A CRC-valid VERSION frame declaring count 2 but carrying only one
108-byte component entry. -/
def exInC6 : List Nat :=
  mkFrame MSG_VERSION (le32bytes 2 ++ List.replicate versionSize 0)

/-- Payload of the C8 test frames: 44 content bytes, followed by 4 bytes
that equal the CRC of the reinterpreted 44-byte frame. -/
def exC8pl : List Nat :=
  List.replicate 44 7 ++
  le32bytes (crc32 (preamble ++ mkHead MSG_TIME 44 ++ List.replicate 44 7))

/-- Preamble, header (declared length 48) and payload of the original C8
frame. -/
def exC8body : List Nat := preamble ++ mkHead MSG_TIME 48 ++ exC8pl

/-- The original C8 frame: well-formed, trailer = CRC of its own bytes. -/
def exC8orig : List Nat := exC8body ++ le32bytes (crc32 exC8body)

/-- The C8 frame after flipping the length byte 48 to 44, holding the
trailer fixed. -/
def exC8mod : List Nat :=
  preamble ++ mkHead MSG_TIME 44 ++ exC8pl ++ le32bytes (crc32 exC8body)

/-- The bytes of the C8 frames before the flipped length byte. -/
def exC8prefix : List Nat := preamble ++ le16bytes MSG_TIME ++ [0, 0]

/-- The bytes of the C8 frames after the flipped length byte. -/
def exC8suffix : List Nat :=
  [0] ++ List.replicate 18 0 ++ exC8pl ++ le32bytes (crc32 exC8body)

/-! ## Helper lemmas -/

set_option maxHeartbeats 1000000

theorem land_land (x a b : Nat) : x &&& a &&& b = x &&& (a &&& b) := by
  apply Nat.eq_of_testBit_eq
  intro i
  simp [Nat.testBit_and, Bool.and_assoc]

theorem land_sub_zero (x M b : Nat) (h : x &&& M = 0) (hmb : M &&& b = b) :
    x &&& b = 0 := by
  rw [← hmb, ← land_land, h, Nat.zero_and]

theorem dispatch_valid (s : Receiver) (head : Head) (pl : List Nat) :
    ((dispatch s head pl).2).valid = s.valid := by
  unfold dispatch storeVersion storeMonitor
  dsimp only
  repeat' split
  all_goals rfl

theorem getData_valid (s : Receiver) (input : List Nat) :
    ((getData s input).2.1).valid = s.valid := by
  unfold getData
  dsimp only
  repeat' split
  all_goals first | rfl | simp [dispatch_valid]

theorem drainLoop_valid (fuel : Nat) (s : Receiver) (input : List Nat) (flags : Nat) :
    ((drainLoop fuel s input flags).1).valid = s.valid := by
  induction fuel generalizing s input flags with
  | zero => rfl
  | succ n ih =>
    unfold drainLoop
    split
    · rfl
    · rw [ih, getData_valid]

theorem drainPhase_valid (s : Receiver) (input : List Nat) :
    ((drainPhase s input).1).valid = false := by
  unfold drainPhase
  rw [drainLoop_valid]

theorem healthEval_blocked (s1 : Receiver) (data : Nat)
    (h : data = 0 ∨ cycleBlocked s1 data) :
    healthEval (s1, data) = s1 := by
  unfold healthEval
  dsimp only
  unfold cycleBlocked at h
  by_cases h0 : data = 0
  · rw [if_pos h0]
  rw [if_neg h0]
  by_cases h1 : data &&& 2 ≠ 0 ∧ s1.rxstatus.error ≠ 0
  · rw [if_pos h1]
  rw [if_neg h1]
  by_cases h2 : s1.rxstatus.rxstat &&& 8 ≠ 0
  · rw [if_pos h2]
  rw [if_neg h2]
  by_cases h3 : s1.rxstatus.rxstat &&& 16 ≠ 0
  · rw [if_pos h3]
  rw [if_neg h3]
  by_cases h4 : s1.rxstatus.rxstat &&& 32 ≠ 0
  · rw [if_pos h4]
  rw [if_neg h4]
  by_cases h5 : s1.rxstatus.rxstat &&& 64 ≠ 0
  · rw [if_pos h5]
  rw [if_neg h5]
  by_cases h6 : s1.rxstatus.rxstat &&& 16384 ≠ 0
  · rw [if_pos h6]
  rw [if_neg h6]
  by_cases h7 : s1.rxstatus.aux3stat &&& 48 ≠ 0
  · rw [if_pos h7]
  rw [if_neg h7]
  by_cases h8 : s1.rxstatus.aux2stat &&& 268435456 ≠ 0
  · rw [if_pos h8]
  rw [if_neg h8]
  by_cases h9 : s1.rxstatus.aux2stat &&& 536870912 ≠ 0
  · rw [if_pos h9]
  rw [if_neg h9]
  by_cases h10 : s1.rxstatus.aux2stat &&& 1073741824 ≠ 0
  · rw [if_pos h10]
  rw [if_neg h10]
  by_cases h11 : s1.rxstatus.aux3stat &&& 192 ≠ 0
  · rw [if_pos h11]
  rw [if_neg h11]
  by_cases h12 : s1.rxstatus.rxstat &&& 262144 ≠ 0
  · rw [if_pos h12]
  rw [if_neg h12]
  by_cases h13 : s1.rxstatus.rxstat &&& 524288 ≠ 0
  · rw [if_pos h13]
  rw [if_neg h13]
  by_cases h14 : s1.rxstatus.rxstat &&& 4194304 ≠ 0
  · rw [if_pos h14]
  rw [if_neg h14]
  tauto

theorem healthEval_open (s1 : Receiver) (data : Nat)
    (hd : ¬ data = 0) (hb : ¬ cycleBlocked s1 data) :
    healthEval (s1, data) =
      if data &&& 0x08 ≠ 0 ∧ s1.bestpos.solutionStatus = SOL_COMPUTED ∧
         data &&& 0x10 ≠ 0 ∧ s1.heading.solutionStatus = SOL_COMPUTED then
        { s1 with valid :=
            s1.heading.positionType == POS_NARROW_INT ||
            s1.heading.positionType == POS_WIDE_INT ||
            s1.heading.positionType == POS_NARROW_FLOAT }
      else s1 := by
  unfold cycleBlocked at hb
  push_neg at hb
  obtain ⟨hb1, hb2, hb3, hb4, hb5, hb6, hb7, hb8, hb9, hb10, hb11, hb12, hb13, hb14⟩ := hb
  unfold healthEval
  dsimp only
  rw [if_neg hd, if_neg (fun hc => hc.2 (hb1 hc.1)),
    if_neg (not_ne_iff.mpr hb2), if_neg (not_ne_iff.mpr hb3),
    if_neg (not_ne_iff.mpr hb4), if_neg (not_ne_iff.mpr hb5),
    if_neg (not_ne_iff.mpr hb6), if_neg (not_ne_iff.mpr hb7),
    if_neg (not_ne_iff.mpr hb8), if_neg (not_ne_iff.mpr hb9),
    if_neg (not_ne_iff.mpr hb10), if_neg (not_ne_iff.mpr hb11),
    if_neg (not_ne_iff.mpr hb12), if_neg (not_ne_iff.mpr hb13),
    if_neg (not_ne_iff.mpr hb14)]
  have t0 : (247 &&& (239 &&& 8) : Nat) = 0 := by decide
  have t2 : (247 &&& 8 : Nat) = 0 := by decide
  have t3 : (239 &&& 16 : Nat) = 0 := by decide
  by_cases c1 : data &&& 8 ≠ 0 ∧ s1.bestpos.solutionStatus ≠ SOL_COMPUTED
  · rw [if_pos c1]
    by_cases c2 : data &&& 247 &&& 16 ≠ 0 ∧ s1.heading.solutionStatus ≠ SOL_COMPUTED
    · rw [if_pos c2,
        if_neg (fun hc => hc.1 (by rw [land_land, land_land, t0, Nat.and_zero])),
        if_neg (by tauto)]
    · rw [if_neg c2,
        if_neg (fun hc => hc.1 (by rw [land_land, t2, Nat.and_zero])),
        if_neg (by tauto)]
  · rw [if_neg c1]
    by_cases c2 : data &&& 16 ≠ 0 ∧ s1.heading.solutionStatus ≠ SOL_COMPUTED
    · rw [if_pos c2,
        if_neg (fun hc => hc.2 (by rw [land_land, t3, Nat.and_zero])),
        if_neg (by tauto)]
    · rw [if_neg c2]
      by_cases g : data &&& 8 ≠ 0 ∧ data &&& 16 ≠ 0
      · rw [if_pos g, if_pos (by tauto)]
      · rw [if_neg g, if_neg (by tauto)]

theorem healthEval_valid_iff (s1 : Receiver) (data : Nat) (hval : s1.valid = false) :
    (healthEval (s1, data)).valid = true ↔
      (¬ cycleBlocked s1 data ∧ data &&& 0x08 ≠ 0 ∧ data &&& 0x10 ≠ 0 ∧
       s1.bestpos.solutionStatus = SOL_COMPUTED ∧
       s1.heading.solutionStatus = SOL_COMPUTED ∧
       (s1.heading.positionType = POS_NARROW_INT ∨
        s1.heading.positionType = POS_WIDE_INT ∨
        s1.heading.positionType = POS_NARROW_FLOAT)) := by
  by_cases hd : data = 0
  · rw [healthEval_blocked _ _ (Or.inl hd)]
    subst hd
    simp [hval]
  by_cases hb : cycleBlocked s1 data
  · rw [healthEval_blocked _ _ (Or.inr hb)]
    simp [hval, hb]
  · rw [healthEval_open _ _ hd hb]
    by_cases hg : data &&& 8 ≠ 0 ∧ s1.bestpos.solutionStatus = SOL_COMPUTED ∧
        data &&& 16 ≠ 0 ∧ s1.heading.solutionStatus = SOL_COMPUTED
    · rw [if_pos hg]
      simp only [Bool.or_eq_true, beq_iff_eq]
      constructor
      · intro hpt
        exact ⟨hb, hg.1, hg.2.2.1, hg.2.1, hg.2.2.2, by tauto⟩
      · intro hr
        tauto
    · rw [if_neg hg]
      rw [hval]
      simp only [Bool.false_eq_true, false_iff]
      intro hr
      exact hg ⟨hr.2.1, hr.2.2.2.1, hr.2.2.1, hr.2.2.2.2.1⟩

theorem getData_parse (s : Receiver) (hb pl tr rest : List Nat)
    (hhb : hb.length = headSize) (hpl : pl.length = (decodeHead hb).msgLenght)
    (htr : tr.length = 4) :
    getData s (preamble ++ hb ++ pl ++ tr ++ rest) =
      if leU32 tr 0 = crc32 (preamble ++ hb ++ pl) then
        ((dispatch s (decodeHead hb) pl).1, (dispatch s (decodeHead hb) pl).2, rest)
      else (0, s, rest) := by
  have hstream : preamble ++ hb ++ pl ++ tr ++ rest =
      HEAD_SYNC_1 :: HEAD_SYNC_2 :: HEAD_SYNC_3 :: HEAD_LENGHT ::
        (hb ++ (pl ++ (tr ++ rest))) := by
    simp [preamble]
  have hlen3 : ¬ ((hb ++ (pl ++ (tr ++ rest))).length < headSize) := by
    simp [hhb]
  have htk24 : (hb ++ (pl ++ (tr ++ rest))).take headSize = hb :=
    List.take_left' hhb
  have hdp24 : (hb ++ (pl ++ (tr ++ rest))).drop headSize = pl ++ (tr ++ rest) :=
    List.drop_left' hhb
  have hlen4 : ¬ ((pl ++ (tr ++ rest)).length < (decodeHead hb).msgLenght) := by
    simp [← hpl]
  have htkpl : (pl ++ (tr ++ rest)).take (decodeHead hb).msgLenght = pl :=
    List.take_left' hpl
  have hdppl : (pl ++ (tr ++ rest)).drop (decodeHead hb).msgLenght = tr ++ rest :=
    List.drop_left' hpl
  have hlen5 : ¬ ((tr ++ rest).length < 4) := by simp [htr]
  have htktr : (tr ++ rest).take 4 = tr := List.take_left' htr
  have hdptr : (tr ++ rest).drop 4 = rest := List.drop_left' htr
  have hcrc : HEAD_SYNC_1 :: HEAD_SYNC_2 :: HEAD_SYNC_3 :: HEAD_LENGHT :: (hb ++ pl) =
      preamble ++ hb ++ pl := by simp [preamble]
  rw [hstream]
  simp only [getData]
  rw [if_neg (by decide), if_neg (by decide), if_neg (by decide), if_neg (by decide),
    if_neg hlen3]
  simp only [htk24, hdp24]
  rw [if_neg hlen4]
  simp only [htkpl, hdppl]
  rw [if_neg hlen5]
  simp only [htktr, hdptr, hcrc]
  by_cases h : leU32 tr 0 = crc32 (preamble ++ hb ++ pl)
  · rw [if_pos h, if_neg (by simpa using h)]
  · rw [if_neg h, if_pos (by simpa using h)]

set_option maxRecDepth 100000

theorem shiftRight_xor (x y k : Nat) : (x ^^^ y) >>> k = (x >>> k) ^^^ (y >>> k) := by
  apply Nat.eq_of_testBit_eq
  intro i
  simp [Nat.testBit_shiftRight, Nat.testBit_xor]

theorem xor_cancel_r {a b c : Nat} (h : a ^^^ c = b ^^^ c) : a = b := by
  have := congrArg (fun t => t ^^^ c) h
  simpa [Nat.xor_assoc] using this

theorem crc32value_lt : ∀ a < 256, crc32value a < 4294967296 := by decide

theorem crc32value_top_nodup :
    ((List.range 256).map (fun a => crc32value a >>> 24)).Nodup := by decide

theorem crc32value_top_inj {a b : Nat} (ha : a < 256) (hb : b < 256) (hne : a ≠ b) :
    crc32value a >>> 24 ≠ crc32value b >>> 24 := by
  intro heq
  exact hne ((List.nodup_map_iff_inj_on (List.nodup_range 256)).mp crc32value_top_nodup a
    (List.mem_range.mpr ha) b (List.mem_range.mpr hb) heq)



theorem land255_lt (x : Nat) : x &&& 255 < 256 :=
  Nat.lt_succ_of_le (Nat.and_le_right)

theorem land255_eq_mod (x : Nat) : x &&& 255 = x % 256 := by
  have h : (255 : Nat) = 2 ^ 8 - 1 := by norm_num
  rw [h, Nat.and_pow_two_sub_one_eq_mod]

theorem shiftRight8_eq_div (x : Nat) : x >>> 8 = x / 256 := by
  rw [Nat.shiftRight_eq_div_pow]

theorem mask24_eq (c : Nat) (hc : c < 4294967296) :
    (c >>> 8) &&& 16777215 = c >>> 8 := by
  have h : (16777215 : Nat) = 2 ^ 24 - 1 := by norm_num
  have hlt : c >>> 8 < 2 ^ 24 := by
    rw [shiftRight8_eq_div]
    omega
  rw [h, Nat.and_pow_two_sub_one_of_lt_two_pow hlt]

theorem shiftRight24_small (x : Nat) (h : x < 16777216) : x >>> 24 = 0 := by
  rw [Nat.shiftRight_eq_div_pow]
  have : (2 : Nat) ^ 24 = 16777216 := by norm_num
  rw [this]
  exact Nat.div_eq_of_lt h

/-- Top byte of one CRC accumulation step: the masked shift contributes
nothing above bit 23, so the top byte comes from `crc32value` alone. -/
theorem crc32update_top (c b : Nat) :
    crc32update c b >>> 24 = crc32value ((c ^^^ b) &&& 255) >>> 24 := by
  unfold crc32update
  rw [shiftRight_xor, shiftRight24_small _ (by
    have := Nat.and_le_right (n := c >>> 8) (m := 16777215)
    omega)]
  rw [Nat.zero_xor]

theorem crc32update_lt (c b : Nat) : crc32update c b < 4294967296 := by
  unfold crc32update
  apply Nat.xor_lt_two_pow (n := 32)
  · have := Nat.and_le_right (n := c >>> 8) (m := 16777215)
    norm_num
    omega
  · have := crc32value_lt ((c ^^^ b) &&& 255) (land255_lt _)
    norm_num
    omega

/-- One CRC step is injective in the accumulator. -/
theorem crc32update_inj_c (c1 c2 b : Nat) (h1 : c1 < 4294967296)
    (h2 : c2 < 4294967296) (hne : c1 ≠ c2) :
    crc32update c1 b ≠ crc32update c2 b := by
  intro heq
  by_cases ha : (c1 ^^^ b) &&& 255 = (c2 ^^^ b) &&& 255
  · -- low bytes agree, so the shifted parts must differ
    have hlow : c1 &&& 255 = c2 &&& 255 := by
      rw [Nat.and_xor_distrib_right, Nat.and_xor_distrib_right] at ha
      exact xor_cancel_r ha
    have hhi : c1 >>> 8 ≠ c2 >>> 8 := by
      intro hsh
      apply hne
      rw [land255_eq_mod, land255_eq_mod] at hlow
      rw [shiftRight8_eq_div, shiftRight8_eq_div] at hsh
      omega
    unfold crc32update at heq
    rw [ha] at heq
    have := xor_cancel_r heq
    rw [mask24_eq _ h1, mask24_eq _ h2] at this
    exact hhi this
  · -- low bytes differ: the top bytes of the step outputs differ
    have htop := crc32value_top_inj (land255_lt (c1 ^^^ b)) (land255_lt (c2 ^^^ b)) ha
    apply htop
    rw [← crc32update_top, ← crc32update_top, heq]

/-- One CRC step is injective in the input byte (below 256). -/
theorem crc32update_inj_b (c b1 b2 : Nat) (hb1 : b1 < 256) (hb2 : b2 < 256)
    (hne : b1 ≠ b2) : crc32update c b1 ≠ crc32update c b2 := by
  intro heq
  have ha : (c ^^^ b1) &&& 255 ≠ (c ^^^ b2) &&& 255 := by
    intro ha
    rw [Nat.and_xor_distrib_right, Nat.and_xor_distrib_right] at ha
    have h255 : (255 : Nat) = 2 ^ 8 - 1 := by norm_num
    have hb1e : b1 &&& 255 = b1 := by
      rw [h255]
      exact Nat.and_pow_two_sub_one_of_lt_two_pow (by norm_num; omega)
    have hb2e : b2 &&& 255 = b2 := by
      rw [h255]
      exact Nat.and_pow_two_sub_one_of_lt_two_pow (by norm_num; omega)
    have := xor_cancel_r (a := b1 &&& 255) (b := b2 &&& 255)
      (c := c &&& 255) (by rw [Nat.xor_comm (b1 &&& 255), Nat.xor_comm (b2 &&& 255)]; exact ha)
    rw [hb1e, hb2e] at this
    exact hne this
  have htop := crc32value_top_inj (land255_lt (c ^^^ b1)) (land255_lt (c ^^^ b2)) ha
  apply htop
  rw [← crc32update_top, ← crc32update_top, heq]

theorem crcfold_lt (l : List Nat) (c : Nat) (hc : c < 4294967296) :
    l.foldl crc32update c < 4294967296 := by
  induction l generalizing c with
  | nil => exact hc
  | cons x xs ih => exact ih _ (crc32update_lt c x)

theorem crcfold_ne (l : List Nat) (c1 c2 : Nat) (h1 : c1 < 4294967296)
    (h2 : c2 < 4294967296) (hne : c1 ≠ c2) :
    l.foldl crc32update c1 ≠ l.foldl crc32update c2 := by
  induction l generalizing c1 c2 with
  | nil => exact hne
  | cons x xs ih =>
    exact ih _ _ (crc32update_lt c1 x) (crc32update_lt c2 x)
      (crc32update_inj_c c1 c2 x h1 h2 hne)

theorem crc32_lt (l : List Nat) : crc32 l < 4294967296 :=
  crcfold_lt l 0 (by norm_num)

/-- Changing a single byte of a block (to a different byte value) always
changes its CRC-32. -/
theorem crc32_flip_ne (u q : List Nat) (x y : Nat) (hx : x < 256) (hy : y < 256)
    (hxy : x ≠ y) : crc32 (u ++ x :: q) ≠ crc32 (u ++ y :: q) := by
  unfold crc32
  rw [List.foldl_append, List.foldl_append]
  simp only [List.foldl_cons]
  exact crcfold_ne q _ _ (crc32update_lt _ x) (crc32update_lt _ y)
    (crc32update_inj_b _ x y hx hy hxy)



theorem leU32_le32bytes (n : Nat) (h : n < 4294967296) :
    leU32 (le32bytes n) 0 = n := by
  simp [leU32, le32bytes, byteAt]
  omega

theorem flip_preserving_length_rejected (s : Receiver) (p q : List Nat) (x y : Nat)
    (hx : x < 256) (hy : y < 256) (hxy : x ≠ y)
    (hns : (decodeHead ((p ++ y :: q).take headSize)).msgLenght =
      (p ++ y :: q).length - headSize)
    (hlen : headSize ≤ (p ++ y :: q).length) :
    getData s (preamble ++ (p ++ y :: q) ++
        le32bytes (crc32 (preamble ++ (p ++ x :: q)))) = (0, s, []) := by
  set body := p ++ y :: q with hbody
  set tr := le32bytes (crc32 (preamble ++ (p ++ x :: q))) with htrdef
  have hsplit : body = body.take headSize ++ body.drop headSize :=
    (List.take_append_drop headSize body).symm
  have hhb : (body.take headSize).length = headSize := by
    rw [List.length_take]
    omega
  have hpl : (body.drop headSize).length =
      (decodeHead (body.take headSize)).msgLenght := by
    rw [List.length_drop, hns]
  have htl : tr.length = 4 := by simp [htrdef, le32bytes]
  have hstream : preamble ++ body ++ tr =
      preamble ++ body.take headSize ++ body.drop headSize ++ tr ++ [] := by
    rw [List.append_nil]
    conv_lhs => rw [hsplit]
    simp [List.append_assoc]
  rw [hstream, getData_parse s _ _ _ _ hhb hpl htl]
  rw [if_neg]
  intro hcontra
  rw [htrdef, leU32_le32bytes _ (crc32_lt _)] at hcontra
  have hxq : preamble ++ (p ++ x :: q) = (preamble ++ p) ++ x :: q := by
    simp [List.append_assoc]
  have hyq : preamble ++ body.take headSize ++ body.drop headSize =
      (preamble ++ p) ++ y :: q := by
    rw [List.append_assoc, ← hsplit, hbody]
    simp [List.append_assoc]
  rw [hxq, hyq] at hcontra
  exact crc32_flip_ne (preamble ++ p) q x y hx hy hxy hcontra

/-! ## Claim theorems -/

set_option maxRecDepth 1000000

/-- C1 counterexample: a polling cycle in which the latest BestPos and
Heading records both have solutionStatus SOL_COMPUTED and there is no
device/antenna failure (RxStatus is all zero), yet `isValid()` is false
because the heading position type (POS_NONE) fails the position-type
gate the claim omits. -/
theorem C1_counterexample :
    (update initialReceiver exInC1).bestpos.solutionStatus = SOL_COMPUTED ∧
    (update initialReceiver exInC1).heading.solutionStatus = SOL_COMPUTED ∧
    (update initialReceiver exInC1).rxstatus.error = 0 ∧
    (update initialReceiver exInC1).rxstatus.rxstat = 0 ∧
    isValid (update initialReceiver exInC1) = false := by
  decide

/-- C1 (amended): after a polling cycle, `isValid()` is true iff the cycle
was not blocked by the device/antenna/RTK early exits, both a BestPos and
a Heading frame arrived during the cycle, both have solutionStatus
SOL_COMPUTED, and the heading position type is NARROW_INT, WIDE_INT or
NARROW_FLOAT; jamming and spoofing bits play no role. -/
theorem C1_update_valid_iff (s : Receiver) (input : List Nat) :
    isValid (update s input) = true ↔
      (¬ cycleBlocked (drainPhase s input).1 (drainPhase s input).2 ∧
       (drainPhase s input).2 &&& 0x08 ≠ 0 ∧
       (drainPhase s input).2 &&& 0x10 ≠ 0 ∧
       (drainPhase s input).1.bestpos.solutionStatus = SOL_COMPUTED ∧
       (drainPhase s input).1.heading.solutionStatus = SOL_COMPUTED ∧
       ((drainPhase s input).1.heading.positionType = POS_NARROW_INT ∨
        (drainPhase s input).1.heading.positionType = POS_WIDE_INT ∨
        (drainPhase s input).1.heading.positionType = POS_NARROW_FLOAT)) :=
  healthEval_valid_iff (drainPhase s input).1 (drainPhase s input).2
    (drainPhase_valid s input)

/-- C1 witness: a concrete cycle (both statuses COMPUTED, position type
NARROW_INT, clean status) on which the amended validity gate fires. -/
theorem C1_witness : isValid (update initialReceiver exInC1w) = true :=
  (C1_update_valid_iff initialReceiver exInC1w).mpr (by
    unfold cycleBlocked
    decide)

/-- C2 counterexample: two polling cycles whose RxStatus records are
identical except in the GPS-almanac/UTC-known-invalid bit (0x00040000) of
the primary status word give different `isValid()` outcomes, so that RTK
advisory bit does influence validity. -/
theorem C2_counterexample :
    (update initialReceiver exInC2a).rxstatus =
      { (update initialReceiver exInC2b).rxstatus with rxstat := 0x00040000 } ∧
    (update initialReceiver exInC2b).rxstatus.rxstat = 0 ∧
    isValid (update initialReceiver exInC2a) = false ∧
    isValid (update initialReceiver exInC2b) = true := by
  decide

/-- C2 (amended): the auxiliary 4 status word — which carries the
satellite-tracking/correction percentages, PDOP/geometry, baseline-length,
link-quality, GLIDE, TerraStar and INS-alignment advisory bits — never
influences the validity outcome of a cycle; the GPS-almanac,
position-solution-invalid and clock-model-invalid bits of the primary
word, by contrast, block validity (see the counterexample). -/
theorem C2_aux4_advisory (s1 : Receiver) (data a4 : Nat) :
    isValid (healthEval
      ({ s1 with rxstatus := { s1.rxstatus with aux4stat := a4 } }, data)) =
      isValid (healthEval (s1, data)) := by
  by_cases hd : data = 0
  · rw [healthEval_blocked
        { s1 with rxstatus := { s1.rxstatus with aux4stat := a4 } } _ (Or.inl hd),
      healthEval_blocked s1 _ (Or.inl hd)]
    rfl
  by_cases hb : cycleBlocked s1 data
  · have hbm : cycleBlocked
        { s1 with rxstatus := { s1.rxstatus with aux4stat := a4 } } data := hb
    rw [healthEval_blocked _ _ (Or.inr hbm), healthEval_blocked _ _ (Or.inr hb)]
    rfl
  · have hbm : ¬ cycleBlocked
        { s1 with rxstatus := { s1.rxstatus with aux4stat := a4 } } data := hb
    rw [healthEval_open _ _ hd hbm, healthEval_open _ _ hd hb]
    dsimp only
    by_cases hg : data &&& 8 ≠ 0 ∧ s1.bestpos.solutionStatus = SOL_COMPUTED ∧
        data &&& 16 ≠ 0 ∧ s1.heading.solutionStatus = SOL_COMPUTED
    · rw [if_pos hg, if_pos hg]
      rfl
    · rw [if_neg hg, if_neg hg]
      rfl

/-- C3 counterexample: a cycle whose decoded RxStatus has all six
per-RF-path jammer bits of the auxiliary 1 word set (and the primary
jammer bit clear) still reports `isJamming() = false`: the getter ignores
the auxiliary 1 word entirely. -/
theorem C3_counterexample :
    (update initialReceiver exInC3).rxstatus.aux1stat = 0x77 ∧
    (update initialReceiver exInC3).rxstatus.rxstat = 0 ∧
    isJamming (update initialReceiver exInC3) = false := by
  decide

/-- C3 (amended): after a polling cycle the jamming flag equals the
whole-receiver jammer bit (0x00008000) of the primary status word alone
(the auxiliary 1 per-RF-path bits are ignored); a status word carrying
only the jammer bit gives jamming and not spoofing, one carrying only the
spoofing bit (0x00000200) gives the reverse. -/
theorem C3_jamming_rxstat_only (s : Receiver) (input : List Nat) :
    (isJamming (update s input) = true ↔
      (update s input).rxstatus.rxstat &&& 0x00008000 ≠ 0) ∧
    ((update s input).rxstatus.rxstat = 0x00008000 →
      isJamming (update s input) = true ∧ isSpoofing (update s input) = false) ∧
    ((update s input).rxstatus.rxstat = 0x00000200 →
      isSpoofing (update s input) = true ∧ isJamming (update s input) = false) := by
  refine ⟨?_, ?_, ?_⟩
  · simp [isJamming, bne_iff_ne]
  · intro h
    exact ⟨by simp [isJamming, h], by simp [isSpoofing, h]; decide⟩
  · intro h
    exact ⟨by simp [isSpoofing, h], by simp [isJamming, h]; decide⟩

/-- C3 witness: a cycle decoding an RxStatus with only the jammer bit set
yields jamming without spoofing. -/
theorem C3_witness :
    isJamming (update initialReceiver exInC3w) = true ∧
    isSpoofing (update initialReceiver exInC3w) = false :=
  (C3_jamming_rxstat_only initialReceiver exInC3w).2.1 (by decide)

/-- C4 counterexample: a cycle whose fresh RxStatus carries the
CPU-overload warning bit (0x80) with a zero error word is NOT blocked:
with good BestPos/Heading frames it yields `isValid() = true`, so warning
bits do not return "unhealthy" as the claim states. -/
theorem C4_counterexample :
    (update initialReceiver exInC4).rxstatus.error = 0 ∧
    (update initialReceiver exInC4).rxstatus.rxstat = 0x80 ∧
    isValid (update initialReceiver exInC4) = true := by
  decide

/-- C4 (amended): on a cycle with a fresh RxStatus, a nonzero error word
blocks validity and skips the antenna/RTK checks (the state is returned
untouched by the health evaluation); warning bits, however, are never
consulted: with a zero error word and no antenna/RTK-checked bit set
(mask 0x004C4078 of the primary word, 0x70000000 of aux2, 0xF0 of aux3)
the cycle proceeds to the solution gate even if every warning bit is set. -/
theorem C4_device_gate (s : Receiver) (input : List Nat) :
    ((drainPhase s input).2 &&& 0x02 ≠ 0 →
     (drainPhase s input).1.rxstatus.error ≠ 0 →
     update s input = (drainPhase s input).1 ∧
       isValid (update s input) = false) ∧
    ((drainPhase s input).1.rxstatus.error = 0 →
     (drainPhase s input).1.rxstatus.rxstat &&& 0x004C4078 = 0 →
     (drainPhase s input).1.rxstatus.aux2stat &&& 0x70000000 = 0 →
     (drainPhase s input).1.rxstatus.aux3stat &&& 0xF0 = 0 →
     (drainPhase s input).2 &&& 0x08 ≠ 0 →
     (drainPhase s input).2 &&& 0x10 ≠ 0 →
     (drainPhase s input).1.bestpos.solutionStatus = SOL_COMPUTED →
     (drainPhase s input).1.heading.solutionStatus = SOL_COMPUTED →
     (drainPhase s input).1.heading.positionType = POS_NARROW_INT →
     isValid (update s input) = true) := by
  constructor
  · intro h2 herr
    have heq : update s input = (drainPhase s input).1 :=
      healthEval_blocked _ _ (Or.inr (Or.inl ⟨h2, herr⟩))
    refine ⟨heq, ?_⟩
    unfold isValid
    rw [heq, drainPhase_valid]
  · intro herr hmask haux2 haux3 h8 h16 hbp hhd hpt
    have hnb : ¬ cycleBlocked (drainPhase s input).1 (drainPhase s input).2 := by
      unfold cycleBlocked
      push_neg
      exact ⟨fun _ => herr,
        land_sub_zero _ _ _ hmask (by decide), land_sub_zero _ _ _ hmask (by decide),
        land_sub_zero _ _ _ hmask (by decide), land_sub_zero _ _ _ hmask (by decide),
        land_sub_zero _ _ _ hmask (by decide), land_sub_zero _ _ _ haux3 (by decide),
        land_sub_zero _ _ _ haux2 (by decide), land_sub_zero _ _ _ haux2 (by decide),
        land_sub_zero _ _ _ haux2 (by decide), land_sub_zero _ _ _ haux3 (by decide),
        land_sub_zero _ _ _ hmask (by decide), land_sub_zero _ _ _ hmask (by decide),
        land_sub_zero _ _ _ hmask (by decide)⟩
    have hd : ¬ (drainPhase s input).2 = 0 := by
      intro h0
      rw [h0] at h8
      simp at h8
    have ho : update s input = _ :=
      healthEval_open (drainPhase s input).1 (drainPhase s input).2 hd hnb
    unfold isValid
    rw [ho, if_pos ⟨h8, hbp, h16, hhd⟩]
    simp [hpt, POS_NARROW_INT]

/-- C4 witness: a hardware-failure error word blocks the cycle, while a
warning-only status word with good solutions yields validity. -/
theorem C4_witness :
    (update initialReceiver exInC4err = (drainPhase initialReceiver exInC4err).1 ∧
      isValid (update initialReceiver exInC4err) = false) ∧
    isValid (update initialReceiver exInC4) = true :=
  ⟨(C4_device_gate initialReceiver exInC4err).1 (by decide) (by decide),
   (C4_device_gate initialReceiver exInC4).2 (by decide) (by decide) (by decide)
     (by decide) (by decide) (by decide) (by decide) (by decide) (by decide)⟩

/-- C5 counterexample: a frame whose 4-byte trailer equals the CRC-32 of
header+payload only (excluding the preamble, as the claim describes) is
rejected by `getData` with the state unchanged, while the same frame with
the trailer equal to the CRC over preamble+header+payload is accepted and
stores the TIME record: the code includes the 4 preamble bytes in the
checksum. -/
theorem C5_counterexample :
    leU32 (le32bytes (crc32 (mkHead MSG_TIME timeSize ++ exC5timePl))) 0 =
      crc32 (mkHead MSG_TIME timeSize ++ exC5timePl) ∧
    getData initialReceiver exC5specFrame = (0, initialReceiver, []) ∧
    (getData initialReceiver exC5codeFrame).1 = MSG_TIME ∧
    (getData initialReceiver exC5codeFrame).2.1.time = decodeTime exC5timePl := by
  decide

/-- C5 (amended): for every frame whose preamble and declared length are
accepted, `getData` compares the little-endian 32-bit trailer against the
CRC-32 computed over the preamble, header and payload bytes (all bytes
from the first sync byte); on mismatch the frame is silently dropped with
no state change, on match the frame proceeds to record dispatch. -/
theorem C5_crc_gate (s : Receiver) (hb pl tr rest : List Nat)
    (hhb : hb.length = headSize) (hpl : pl.length = (decodeHead hb).msgLenght)
    (htr : tr.length = 4) :
    (leU32 tr 0 ≠ crc32 (preamble ++ hb ++ pl) →
      getData s (preamble ++ hb ++ pl ++ tr ++ rest) = (0, s, rest)) ∧
    (leU32 tr 0 = crc32 (preamble ++ hb ++ pl) →
      getData s (preamble ++ hb ++ pl ++ tr ++ rest) =
        ((dispatch s (decodeHead hb) pl).1,
         (dispatch s (decodeHead hb) pl).2, rest)) := by
  have h := getData_parse s hb pl tr rest hhb hpl htr
  constructor
  · intro hne
    rw [h, if_neg hne]
  · intro heq
    rw [h, if_pos heq]

/-- C5 witness: the gate applied to the concrete TIME frame with the
receiver-computed trailer. -/
theorem C5_witness :
    getData initialReceiver (preamble ++ mkHead MSG_TIME timeSize ++ exC5timePl ++
        le32bytes (crc32 exC5body) ++ []) =
      ((dispatch initialReceiver (decodeHead (mkHead MSG_TIME timeSize)) exC5timePl).1,
       (dispatch initialReceiver (decodeHead (mkHead MSG_TIME timeSize)) exC5timePl).2,
       []) :=
  (C5_crc_gate initialReceiver (mkHead MSG_TIME timeSize) exC5timePl
    (le32bytes (crc32 exC5body)) [] (by decide) (by decide) (by decide)).2 (by decide)

/-- C6 counterexample: a CRC-valid VERSION frame declaring count 2 over a
112-byte payload (one 108-byte entry) is rejected — no record entry is
stored and `getData` returns 0 — but the observable `versionComponent()`
changes from 0 to 2: the count field is copied before the size check. -/
theorem C6_counterexample :
    (getData initialReceiver exInC6).1 = 0 ∧
    (getData initialReceiver exInC6).2.1.version = initialReceiver.version ∧
    versionComponent (getData initialReceiver exInC6).2.1 = 2 ∧
    versionComponent initialReceiver = 0 := by
  decide

/-- C6 (amended): for a CRC-valid count-prefixed frame (VERSION or
HWMONITOR) whose payload length minus 4 does not equal count times the
per-entry size, the frame is discarded — no record entry is stored and
`getData` returns 0 — but the stored count (`_versionIdx` respectively
`_measurement`) is overwritten with the frame's count field, so the
receiver state is not entirely unchanged. -/
theorem C6_count_mismatch (s : Receiver) (hb pl tr rest : List Nat)
    (hhb : hb.length = headSize) (hpl : pl.length = (decodeHead hb).msgLenght)
    (htr : tr.length = 4)
    (hcrc : leU32 tr 0 = crc32 (preamble ++ hb ++ pl)) :
    ((decodeHead hb).msgId = MSG_VERSION → ¬ (decodeHead hb).msgLenght < 4 →
      (decodeHead hb).msgLenght - 4 ≠ leU32 pl 0 * versionSize →
      getData s (preamble ++ hb ++ pl ++ tr ++ rest) =
        (0, { s with versionIdx := leU32 pl 0 }, rest)) ∧
    ((decodeHead hb).msgId = MSG_HWMONITOR → ¬ (decodeHead hb).msgLenght < 4 →
      (decodeHead hb).msgLenght - 4 ≠ leU32 pl 0 * hwMonitorSize →
      getData s (preamble ++ hb ++ pl ++ tr ++ rest) =
        (0, { s with measurement := leU32 pl 0 }, rest)) := by
  have h := getData_parse s hb pl tr rest hhb hpl htr
  constructor
  · intro hid hsz hmm
    have hd : dispatch s (decodeHead hb) pl = (0, { s with versionIdx := leU32 pl 0 }) := by
      unfold dispatch
      rw [if_pos hid]
      dsimp only
      rw [if_neg hsz, if_pos hmm]
    rw [h, if_pos hcrc, hd]
  · intro hid hsz hmm
    have hd : dispatch s (decodeHead hb) pl = (0, { s with measurement := leU32 pl 0 }) := by
      unfold dispatch
      rw [hid, if_neg (by decide), if_pos (by decide)]
      dsimp only
      rw [if_neg hsz, if_pos hmm]
    rw [h, if_pos hcrc, hd]

/-- C6 witness: the VERSION part of the mismatch gate applied to the
concrete frame with count 2 and one entry. -/
theorem C6_witness :
    getData initialReceiver (preamble ++ mkHead MSG_VERSION 112 ++
        (le32bytes 2 ++ List.replicate versionSize 0) ++
        le32bytes (crc32 (preamble ++ mkHead MSG_VERSION 112 ++
          (le32bytes 2 ++ List.replicate versionSize 0))) ++ []) =
      (0, { initialReceiver with
              versionIdx := leU32 (le32bytes 2 ++ List.replicate versionSize 0) 0 },
       []) :=
  (C6_count_mismatch initialReceiver (mkHead MSG_VERSION 112)
    (le32bytes 2 ++ List.replicate versionSize 0) _ [] (by decide) (by decide)
    (by decide) (by decide)).1 (by decide) (by decide) (by decide)

/-- C7 (confirmed): truncating a well-formed frame anywhere — inside the
preamble, the header-length byte, the fixed header, the declared payload
or the 4-byte trailer — makes `getData` return the no-frame outcome 0
with the receiver state unchanged; no partial record is stored. -/
theorem C7_truncation_no_frame (s : Receiver) (hb pl tr : List Nat) (n : Nat)
    (hhb : hb.length = headSize) (hpl : pl.length = (decodeHead hb).msgLenght)
    (htr : tr.length = 4) (hn : n < (preamble ++ hb ++ pl ++ tr).length) :
    getData s ((preamble ++ hb ++ pl ++ tr).take n) = (0, s, []) := by
  have hlen : (preamble ++ hb ++ pl ++ tr).length = 32 + pl.length := by
    simp only [preamble, List.length_append, List.length_cons, List.length_nil,
      hhb, htr, headSize]
    omega
  rw [hlen] at hn
  have hstream : preamble ++ hb ++ pl ++ tr =
      HEAD_SYNC_1 :: HEAD_SYNC_2 :: HEAD_SYNC_3 :: HEAD_LENGHT ::
        (hb ++ (pl ++ tr)) := by
    simp [preamble]
  rw [hstream]
  match n, hn with
  | 0, _ => rfl
  | 1, _ => simp [getData, HEAD_SYNC_1]
  | 2, _ => simp [getData, HEAD_SYNC_1, HEAD_SYNC_2]
  | 3, _ => simp [getData, HEAD_SYNC_1, HEAD_SYNC_2, HEAD_SYNC_3]
  | (m + 4), hn =>
    have hm : m < 28 + pl.length := by omega
    simp only [List.take_succ_cons]
    simp only [getData]
    rw [if_neg (by decide), if_neg (by decide), if_neg (by decide), if_neg (by decide)]
    have hlentk : ((hb ++ (pl ++ tr)).take m).length = m := by
      simp only [List.length_take, List.length_append, hhb, htr, headSize]
      omega
    by_cases h24 : m < headSize
    · rw [if_pos (by rw [hlentk]; exact h24)]
    · rw [if_neg (by rw [hlentk]; exact h24)]
      push_neg at h24
      have htk24 : ((hb ++ (pl ++ tr)).take m).take headSize = hb := by
        rw [List.take_take, Nat.min_eq_left h24, List.take_left' hhb]
      have hdp24 : ((hb ++ (pl ++ tr)).take m).drop headSize =
          (pl ++ tr).take (m - headSize) := by
        rw [List.drop_take, List.drop_left' hhb]
      simp only [htk24, hdp24]
      have hlentk2 : ((pl ++ tr).take (m - headSize)).length = m - headSize := by
        simp only [List.length_take, List.length_append, htr, headSize]
        omega
      by_cases hpl2 : m - headSize < (decodeHead hb).msgLenght
      · rw [if_pos (by rw [hlentk2]; exact hpl2)]
      · rw [if_neg (by rw [hlentk2]; exact hpl2)]
        push_neg at hpl2
        have htkpl : ((pl ++ tr).take (m - headSize)).take
            (decodeHead hb).msgLenght = pl := by
          rw [List.take_take, Nat.min_eq_left hpl2, List.take_left' hpl]
        have hdppl : ((pl ++ tr).take (m - headSize)).drop
            (decodeHead hb).msgLenght = tr.take (m - headSize - pl.length) := by
          rw [List.drop_take, List.drop_left' hpl, hpl]
        simp only [htkpl, hdppl]
        have hlentk3 : (tr.take (m - headSize - pl.length)).length < 4 := by
          simp only [List.length_take, htr, headSize]
          omega
        rw [if_pos hlentk3]

/-- C7 witness: a TIME frame truncated to its first 30 bytes yields the
no-frame outcome with the state unchanged. -/
theorem C7_witness :
    getData initialReceiver ((preamble ++ mkHead MSG_TIME timeSize ++ exC5timePl ++
        le32bytes (crc32 exC5body)).take 30) = (0, initialReceiver, []) :=
  C7_truncation_no_frame initialReceiver (mkHead MSG_TIME timeSize) exC5timePl
    (le32bytes (crc32 exC5body)) 30 (by decide) (by decide) (by decide) (by decide)

/-- C8 counterexample: `exC8orig` is a well-formed frame (its trailer is
the CRC of its own bytes); flipping the single header byte that holds the
declared payload length from 48 to 44, holding the trailer fixed, yields
a frame `getData` ACCEPTS (it returns the TIME message id and overwrites
the stored TIME record), because the parse re-aligns and finds a matching
CRC inside the old payload — the claim's universal rejection fails. -/
theorem C8_counterexample :
    exC8orig = exC8prefix ++ 48 :: exC8suffix ∧
    exC8mod = exC8prefix ++ 44 :: exC8suffix ∧
    exC8orig = exC8body ++ le32bytes (crc32 exC8body) ∧
    (getData initialReceiver exC8mod).1 = MSG_TIME ∧
    (getData initialReceiver exC8mod).2.1.time ≠ initialReceiver.time := by
  decide

/-- C8 (amended): flipping a single byte of a frame's header or payload,
holding the 4-byte trailer (the CRC of the original frame) fixed, makes
the CRC comparison fail and `getData` reject the frame with the receiver
state unchanged — provided the flip leaves the header's declared payload
length consistent with the actual payload (flips of the length field can
re-align the parse and be accepted, see the counterexample). -/
theorem C8_flip_rejected (s : Receiver) (p q : List Nat) (x y : Nat)
    (hx : x < 256) (hy : y < 256) (hxy : x ≠ y)
    (hns : (decodeHead ((p ++ y :: q).take headSize)).msgLenght =
      (p ++ y :: q).length - headSize)
    (hlen : headSize ≤ (p ++ y :: q).length) :
    getData s (preamble ++ (p ++ y :: q) ++
        le32bytes (crc32 (preamble ++ (p ++ x :: q)))) = (0, s, []) :=
  flip_preserving_length_rejected s p q x y hx hy hxy hns hlen

/-- C8 witness: flipping the payload byte of a one-byte-payload frame
from 5 to 6 while keeping the original trailer is rejected with the state
unchanged. -/
theorem C8_witness :
    getData initialReceiver (preamble ++ (mkHead 500 1 ++ 6 :: []) ++
        le32bytes (crc32 (preamble ++ (mkHead 500 1 ++ 5 :: [])))) =
      (0, initialReceiver, []) :=
  C8_flip_rejected initialReceiver (mkHead 500 1) [] 5 6 (by decide) (by decide)
    (by decide) (by decide) (by decide)

/-- C9 (confirmed): `utcTime` always writes all six out-parameters from
the latest TIME record — year, month, day, hour, minute and the second as
`utc_ms / 1000` (truncated to eight bits by the `uint8_t` cast, which is
the identity on the documented 0..60999 range) — regardless of validity,
and returns true iff the record's clock status is CLOCK_VALID and its UTC
status is UTC_VALID; a caller ignoring the return value can thus read a
time the receiver marked invalid. -/
theorem C9_utcTime_writes_and_validates (s : Receiver) :
    (utcTime s).1.year = s.time.utc_year ∧
    (utcTime s).1.month = s.time.utc_month ∧
    (utcTime s).1.day = s.time.utc_day ∧
    (utcTime s).1.hour = s.time.utc_hour ∧
    (utcTime s).1.minute = s.time.utc_min ∧
    (utcTime s).1.second = s.time.utc_ms / 1000 % 256 ∧
    (s.time.utc_ms ≤ 60999 → (utcTime s).1.second = s.time.utc_ms / 1000) ∧
    ((utcTime s).2 = true ↔
      (s.time.clock_status = CLOCK_VALID ∧ s.time.utc_status = UTC_VALID)) := by
  refine ⟨rfl, rfl, rfl, rfl, rfl, rfl, ?_, ?_⟩
  · intro h
    have hlt : s.time.utc_ms / 1000 < 256 := by omega
    simp [utcTime, Nat.mod_eq_of_lt hlt]
  · simp [utcTime, Bool.and_eq_true, beq_iff_eq]

/-- C9 witness: the freshly constructed receiver (zero TIME record) has
its second written as `utc_ms / 1000` and its return value governed by
the two status fields. -/
theorem C9_witness :
    (utcTime initialReceiver).1.second = initialReceiver.time.utc_ms / 1000 ∧
    ((utcTime initialReceiver).2 = true ↔
      (initialReceiver.time.clock_status = CLOCK_VALID ∧
       initialReceiver.time.utc_status = UTC_VALID)) :=
  ⟨(C9_utcTime_writes_and_validates initialReceiver).2.2.2.2.2.2.1 (by decide),
   (C9_utcTime_writes_and_validates initialReceiver).2.2.2.2.2.2.2⟩

/-- C10 (confirmed): `version(idx)` maps any index strictly greater than
`versionComponent()` to slot 0, but maps the boundary index
`versionComponent()` to slot `versionComponent()` itself; after a
successful VERSION decode of `cnt` components the decoded entries occupy
slots 0 through `cnt - 1` only, so the boundary access reads the stale
slot `cnt` — the out-of-range guard is off by one. -/
theorem C10_version_guard_off_by_one (s : Receiver) (idx cnt : Nat)
    (es : List (List Nat)) (hes : es.length = cnt) :
    (idx > versionComponent s → versionGet s idx = s.version.getD 0 versionDefault) ∧
    versionGet s (versionComponent s) = s.version.getD s.versionIdx versionDefault ∧
    versionComponent (storeVersion s cnt es) = cnt ∧
    (∀ j, j < cnt → (storeVersion s cnt es).version.getD j versionDefault =
      es.getD j versionDefault) ∧
    versionGet (storeVersion s cnt es) cnt = s.version.getD cnt versionDefault := by
  refine ⟨?_, ?_, rfl, ?_, ?_⟩
  · intro h
    unfold versionGet versionComponent at *
    rw [if_pos h]
  · unfold versionGet versionComponent
    rw [if_neg (lt_irrefl _)]
  · intro j hj
    unfold storeVersion
    dsimp only
    rw [List.getD_append _ _ _ _ (by omega)]
  · unfold versionGet storeVersion
    dsimp only
    rw [if_neg (lt_irrefl _), List.getD_append_right _ _ _ _ (by omega), hes,
      Nat.sub_self, List.getD_eq_getElem?_getD, List.getElem?_drop,
      Nat.add_zero, ← List.getD_eq_getElem?_getD]

/-- C10 witness: on a receiver whose store decoded two concrete entries,
index 3 falls back to slot 0 and the boundary index 2 reads the stale
third slot. -/
theorem C10_witness :
    (versionGet (storeVersion initialReceiver 2
        [List.replicate versionSize 1, List.replicate versionSize 2]) 3 =
      (storeVersion initialReceiver 2
        [List.replicate versionSize 1, List.replicate versionSize 2]).version.getD 0
        versionDefault) ∧
    versionGet (storeVersion initialReceiver 2
        [List.replicate versionSize 1, List.replicate versionSize 2]) 2 =
      initialReceiver.version.getD 2 versionDefault :=
  ⟨(C10_version_guard_off_by_one (storeVersion initialReceiver 2
      [List.replicate versionSize 1, List.replicate versionSize 2]) 3 0 []
      (by decide)).1 (by decide),
   (C10_version_guard_off_by_one initialReceiver 3 2
      [List.replicate versionSize 1, List.replicate versionSize 2]
      (by decide)).2.2.2.2⟩

end OEM7
